import Mathlib

/-!
Shallow embedding of the libcontainer launch orchestrator:
the `network` package interface primitives (`network.go`) and the
`namespaces` package launch sequencer (`Exec`, `SetupCgroups`,
`InitializeNetworking`, `TeardownNetworking`, `GetNamespaceFlags`).

External collaborators that the orchestrator only calls (netlink requests,
the Go standard library, cgroup backends, the sync pipe, the bookkeeping
collaborator, network strategies) are modelled as oracle fields of
environment records: each oracle fixes the outcome the collaborator would
return during one run, and the embedded functions record which calls they
make as an explicit event trace.  Control flow, error propagation and
`defer`-based unwinding are translated statement by statement from the Go
source.
-/

namespace Libcontainer

/-- Opaque identity of a Go `error` value (`nil` is `Option.none`). -/
abbrev GoError := Nat

/-- Registry entry `libcontainer.Namespace`: only its `Value` flag field is
read by `GetNamespaceFlags`. -/
structure NamespaceInfo where
  Value : Nat
  deriving DecidableEq, Repr

/-- Specification `cgroups.Cgroup`; opaque to the orchestrator. -/
structure CgroupSpec where
  id : Nat
  deriving DecidableEq, Repr

/-- Cleanup handle `cgroups.ActiveCgroup`; opaque to the orchestrator. -/
structure ActiveCgroup where
  id : Nat
  deriving DecidableEq, Repr

/-- One entry of `container.Networks`: carries its strategy discriminator
(`config.Type` in the source). -/
structure NetworkConfig where
  netType : String
  deriving DecidableEq, Repr

/-- One entry of `container.NetworkInterfaces`. -/
structure NetworkInterface where
  HostIfaceName : String
  deriving DecidableEq, Repr

/-- Structure `libcontainer.Container`: the fields read by the embedded functions.
The Go `Namespaces` field is a `map[string]bool`; it is represented by its
entry list, and order-independence is proved rather than assumed. -/
structure Container where
  Tty : Bool
  Cgroups : Option CgroupSpec
  Namespaces : List (String × Bool)
  Networks : List NetworkConfig
  NetworkInterfaces : List NetworkInterface
  deriving DecidableEq, Repr

/-- Payload `libcontainer.Context`: the string-to-string mapping built during
network setup and sent to the child over the sync pipe. -/
abbrev Context := List (String × String)

/-! ## Namespace Flag Resolver (`GetNamespaceFlags`) -/

/-- The body of the `GetNamespaceFlags` loop: `flag |= ns.Value` when the
entry is enabled and the registry `g` recognizes its name. -/
def nsStep (g : String → Option NamespaceInfo) (flag : Nat) (p : String × Bool) : Nat :=
  if p.2 then
    match g p.1 with
    | some ns => flag ||| ns.Value
    | none => flag
  else flag

/-- Function `GetNamespaceFlags` from the source: iterate the `Namespaces` map and
OR together `ns.Value` of every enabled name the registry
(`libcontainer.GetNamespace`, passed here as the oracle `g`) recognizes. -/
def GetNamespaceFlags (g : String → Option NamespaceInfo)
    (namespaces : List (String × Bool)) : Nat :=
  namespaces.foldl (nsStep g) 0

/-- The flag contribution of a single map entry: its registered value when
enabled and recognized, otherwise `0`. -/
def nsContrib (g : String → Option NamespaceInfo) (p : String × Bool) : Nat :=
  if p.2 then
    match g p.1 with
    | some ns => ns.Value
    | none => 0
  else 0

/-- Written from the spec sentence: the bitwise OR of the registered flag
values of exactly the enabled, recognized namespaces. -/
def specNamespaceFlags (g : String → Option NamespaceInfo)
    (namespaces : List (String × Bool)) : Nat :=
  ((namespaces.filter (fun p => p.2)).filterMap
      (fun p => Option.map NamespaceInfo.Value (g p.1))).foldr (· ||| ·) 0

lemma nsStep_eq (g : String → Option NamespaceInfo) (a : Nat) (p : String × Bool) :
    nsStep g a p = a ||| nsContrib g p := by
  rcases p with ⟨k, e⟩
  cases e <;> simp [nsStep, nsContrib]
  cases g k <;> simp

lemma foldl_nsStep_lor (g : String → Option NamespaceInfo) :
    ∀ (l : List (String × Bool)) (a : Nat),
      l.foldl (nsStep g) a = a ||| l.foldl (nsStep g) 0 := by
  intro l
  induction l with
  | nil => intro a; simp
  | cons p t ih =>
      intro a
      simp only [List.foldl_cons]
      rw [ih (nsStep g a p), ih (nsStep g 0 p), nsStep_eq, nsStep_eq,
        Nat.lor_assoc]
      simp

lemma getNamespaceFlags_cons (g : String → Option NamespaceInfo)
    (p : String × Bool) (t : List (String × Bool)) :
    GetNamespaceFlags g (p :: t) = nsContrib g p ||| GetNamespaceFlags g t := by
  simp only [GetNamespaceFlags, List.foldl_cons]
  rw [foldl_nsStep_lor g t (nsStep g 0 p), nsStep_eq]
  simp

lemma getNamespaceFlags_perm (g : String → Option NamespaceInfo)
    {l l' : List (String × Bool)} (h : l.Perm l') :
    GetNamespaceFlags g l = GetNamespaceFlags g l' := by
  induction h with
  | nil => rfl
  | cons x _ ih => rw [getNamespaceFlags_cons, getNamespaceFlags_cons, ih]
  | swap x y t =>
      rw [getNamespaceFlags_cons, getNamespaceFlags_cons,
        getNamespaceFlags_cons, getNamespaceFlags_cons,
        ← Nat.lor_assoc, ← Nat.lor_assoc, Nat.lor_comm (nsContrib g y) (nsContrib g x)]
  | trans _ _ ih1 ih2 => rw [ih1, ih2]

lemma getNamespaceFlags_eq_spec (g : String → Option NamespaceInfo)
    (l : List (String × Bool)) :
    GetNamespaceFlags g l = specNamespaceFlags g l := by
  induction l with
  | nil => rfl
  | cons p t ih =>
      rcases p with ⟨k, e⟩
      rw [getNamespaceFlags_cons]
      cases e with
      | false => simpa [specNamespaceFlags, nsContrib] using ih
      | true =>
          cases hg : g k with
          | none => simpa [specNamespaceFlags, nsContrib, hg] using ih
          | some ns =>
              simp only [specNamespaceFlags, nsContrib, hg, List.filter_cons,
                List.filterMap_cons, List.foldr_cons, if_pos rfl, Option.map_some']
              rw [ih]
              simp [specNamespaceFlags, hg]

/-! ## Cgroup Application (`SetupCgroups`) -/

/-- Oracles for the cgroup backends.  Modelled from the spec: the
`systemd`/`fs` backend packages and the host-init-system probe
(`systemd.UseSystemd`) are outside this source file; each `Apply` is a
function from the cgroup spec and pid to the `(handle, error)` pair it
would return. -/
structure CgroupEnv where
  useSystemd : Bool
  systemdApply : CgroupSpec → Int → Option ActiveCgroup × Option GoError
  fsApply : CgroupSpec → Int → Option ActiveCgroup × Option GoError

/-- Function `SetupCgroups` from the source: nothing to do when the container has no
cgroup spec; otherwise dispatch to the systemd backend when the host init
system manages cgroups, and to the native fs backend otherwise. -/
def SetupCgroups (cg : CgroupEnv) (container : Container) (nspid : Int) :
    Option ActiveCgroup × Option GoError :=
  match container.Cgroups with
  | some c =>
      if cg.useSystemd then cg.systemdApply c nspid
      else cg.fsApply c nspid
  | none => (none, none)

/-! ## Interface primitive `SetInterfaceIp` -/

/-- Oracles for the collaborators of `SetInterfaceIp`: the Go standard
library lookups (`net.InterfaceByName`, `net.ParseCIDR`) and the netlink
request (`netlink.NetworkLinkAddIp`).  Interface handles, addresses and
networks are opaque identifiers. -/
structure NetlinkEnv where
  interfaceByName : String → Except GoError Nat
  parseCIDR : String → Except GoError (Nat × Nat)
  networkLinkAddIp : Nat → Nat → Nat → Option GoError

/-- A netlink request actually issued by `SetInterfaceIp`. -/
inductive NetlinkOp where
  | addIp (iface ip ipNet : Nat)
  deriving DecidableEq, Repr

/-- Function `SetInterfaceIp` from the source: look the interface up, parse the CIDR
string, and only then issue the netlink add-address request.  The second
component records the netlink requests issued. -/
def SetInterfaceIp (env : NetlinkEnv) (name rawIp : String) :
    Option GoError × List NetlinkOp :=
  match env.interfaceByName name with
  | Except.error e => (some e, [])
  | Except.ok iface =>
      match env.parseCIDR rawIp with
      | Except.error e => (some e, [])
      | Except.ok (ip, ipNet) =>
          (env.networkLinkAddIp iface ip ipNet, [NetlinkOp.addIp iface ip ipNet])

/-! ## Network strategies, `InitializeNetworking`, `TeardownNetworking` -/

/-- An interface operation attempted by the relocation or teardown loop:
`network.InterfaceDown`, `network.SetInterfaceInNamespacePid`,
`network.InterfaceUp` on a named host interface. -/
inductive NetEvent where
  | downEv (name : String)
  | setNsPidEv (name : String) (nspid : Int)
  | upEv (name : String)
  deriving DecidableEq, Repr

/-- Oracles for the collaborators of the networking orchestration.
`getStrategy` models `network.GetStrategy` (modelled from the spec: an
unknown discriminator is a fatal lookup error); a strategy's `Create` is a
function from config, pid and the context so far to the updated context and
its error.  The three interface-operation oracles fix the outcome each
netlink-backed call would have; `sendToChild` models the sync pipe write of
the context payload; the remaining fields fix the outcomes of the
namespace-file operations in `TeardownNetworking`. -/
structure NetEnv where
  getStrategy : String → Except GoError (NetworkConfig → Int → Context → Context × Option GoError)
  ifaceDownRes : String → Option GoError
  setNsPidRes : String → Int → Option GoError
  ifaceUpRes : String → Option GoError
  sendToChild : Context → Option GoError
  openSelfNsRes : Option GoError
  openPidNsRes : Option GoError
  setnsToPidRes : Option GoError
  setnsBackRes : Option GoError

/-- The strategy loop of `InitializeNetworking`: look each configured
network's strategy up and run its `Create`, stopping at the first error. -/
def runStrategies (env : NetEnv) (configs : List NetworkConfig) (nspid : Int)
    (ctx : Context) : Context × Option GoError :=
  match configs with
  | [] => (ctx, none)
  | config :: rest =>
      match env.getStrategy config.netType with
      | Except.error e => (ctx, some e)
      | Except.ok create =>
          match create config nspid ctx with
          | (ctx2, some e) => (ctx2, some e)
          | (ctx2, none) => runStrategies env rest nspid ctx2

/-- One iteration of the relocation loop: bring the host interface down,
move it into the child's namespace, bring it up; each failure is only
turned into a log line. -/
def relocateInterface (env : NetEnv) (name : String) (nspid : Int) :
    List NetEvent × List String :=
  ([NetEvent.downEv name, NetEvent.setNsPidEv name nspid, NetEvent.upEv name],
    (match env.ifaceDownRes name with
      | some _ => ["interface down failed for " ++ name]
      | none => []) ++
    (match env.setNsPidRes name nspid with
      | some _ => ["failed to set interface into namespace pid, named " ++ name]
      | none => []) ++
    (match env.ifaceUpRes name with
      | some _ => ["interface up failed for " ++ name]
      | none => []))

/-- The relocation loop of `InitializeNetworking` over
`container.NetworkInterfaces`. -/
def relocateInterfaces (env : NetEnv) (ifaces : List NetworkInterface)
    (nspid : Int) : List NetEvent × List String :=
  match ifaces with
  | [] => ([], [])
  | i :: rest =>
      ((relocateInterface env i.HostIfaceName nspid).1 ++
          (relocateInterfaces env rest nspid).1,
        (relocateInterface env i.HostIfaceName nspid).2 ++
          (relocateInterfaces env rest nspid).2)

/-- Function `InitializeNetworking` from the source: run every configured network's
strategy (first error aborts), then relocate every bound host interface
into the child's namespace best-effort, then send the accumulated context
to the child over the sync pipe.  The first component is the Go return
value; the second records the interface operations attempted; the third
the log lines. -/
def InitializeNetworking (env : NetEnv) (container : Container) (nspid : Int) :
    Option GoError × List NetEvent × List String :=
  match runStrategies env container.Networks nspid [] with
  | (_, some e) => (some e, [], [])
  | (ctx, none) =>
      (env.sendToChild ctx,
        (relocateInterfaces env container.NetworkInterfaces nspid).1,
        (relocateInterfaces env container.NetworkInterfaces nspid).2)

/-- One iteration of the teardown loop: bring the interface down, move it
back to the root namespace (pid 1), bring it up; each failure is only
turned into a log line. -/
def teardownInterface (env : NetEnv) (name : String) :
    List NetEvent × List String :=
  ([NetEvent.downEv name, NetEvent.setNsPidEv name 1, NetEvent.upEv name],
    (match env.ifaceDownRes name with
      | some _ => ["interface down failed for " ++ name]
      | none => []) ++
    (match env.setNsPidRes name 1 with
      | some _ => ["unable to set interface namespace pid, named " ++ name]
      | none => []) ++
    (match env.ifaceUpRes name with
      | some _ => ["interface up failed for " ++ name]
      | none => []))

/-- The teardown loop of `TeardownNetworking` over
`container.NetworkInterfaces`. -/
def teardownInterfaces (env : NetEnv) (ifaces : List NetworkInterface) :
    List NetEvent × List String :=
  match ifaces with
  | [] => ([], [])
  | i :: rest =>
      ((teardownInterface env i.HostIfaceName).1 ++
          (teardownInterfaces env rest).1,
        (teardownInterface env i.HostIfaceName).2 ++
          (teardownInterfaces env rest).2)

/-- Function `TeardownNetworking` from the source: open the supervisor's and the
child's namespace files and switch into the child's namespace (all
failures only logged), run the three-step reversal for every bound
interface, and switch back to the original namespace via the deferred
`Setns` (only registered when the original namespace file was opened,
failure only logged).  First component: the interface operations
attempted; second: the log lines. -/
def TeardownNetworking (env : NetEnv) (container : Container) (nspid : Int) :
    List NetEvent × List String :=
  ((teardownInterfaces env container.NetworkInterfaces).1,
    (match env.openSelfNsRes with
      | some _ => ["unable to open self proc"]
      | none => []) ++
    (match env.openPidNsRes with
      | some _ => ["unable to open pid proc"]
      | none => []) ++
    (match env.setnsToPidRes with
      | some _ => ["unable to set ns to pid proc"]
      | none => []) ++
    (teardownInterfaces env container.NetworkInterfaces).2 ++
    (match env.openSelfNsRes with
      | none =>
          match env.setnsBackRes with
          | some _ => ["unable to set ns to self proc"]
          | none => []
      | some _ => []))

/-- The per-interface three-step trace the relocation loop is expected to
produce: down, reassign to `nspid`, up, for every interface in order. -/
def expectedIfaceTrace (ifaces : List NetworkInterface) (nspid : Int) :
    List NetEvent :=
  match ifaces with
  | [] => []
  | i :: rest =>
      NetEvent.downEv i.HostIfaceName ::
        NetEvent.setNsPidEv i.HostIfaceName nspid ::
        NetEvent.upEv i.HostIfaceName :: expectedIfaceTrace rest nspid

/-! ## Process Launch Orchestrator (`Exec`) -/

/-- A supervisor-side action of the `Exec` launch sequence, recorded in
the order the source performs it.  `killEv` is `command.Process.Kill`,
`waitEv` is `command.Wait`; the `*CloseEv`, `deletePidEv`,
`cleanupCgroupEv` and `teardownNetEv` events are the deferred cleanups. -/
inductive Event where
  | newSyncPipeEv
  | createMasterEv
  | setMasterEv
  | termAttachEv
  | commandStartEv
  | getStartTimeEv
  | writePidEv
  | setupCgroupsEv
  | initNetEv
  | pipeCloseEv
  | callbackEv
  | killEv
  | waitEv
  | teardownNetEv
  | cleanupCgroupEv
  | deletePidEv
  | termCloseEv
  deriving DecidableEq, Repr

/-- Outcome of the final `command.Wait`: a nil error, an
`*exec.ExitError` (non-zero exit), or a failure that is not an exit
status. -/
inductive WaitResult where
  | normal
  | exitError
  | otherError (e : GoError)
  deriving DecidableEq, Repr

/-- Oracles for the external calls `Exec` makes, in source order:
`NewSyncPipe`, `system.CreateMasterAndConsole`, `term.Attach`,
`command.Start`, `system.GetProcessStartTime`, `WritePid` (each an
`Option GoError`, `none` meaning success), the cgroup backends, the
networking collaborators, the caller's start callback, the final
`command.Wait` outcome, the child's exit status, and the child's pid. -/
structure ExecEnv where
  newSyncPipeRes : Option GoError
  createMasterRes : Option GoError
  termAttachRes : Option GoError
  commandStartRes : Option GoError
  getStartTimeRes : Option GoError
  writePidRes : Option GoError
  cg : CgroupEnv
  net : NetEnv
  hasStartCallback : Bool
  waitRes : WaitResult
  exitStatus : Int
  childPid : Int

/-- The result of a run of `Exec`: the returned `(exitCode, error)` pair
and the recorded supervisor-side event trace. -/
structure ExecResult where
  exitCode : Int
  error : Option GoError
  events : List Event
  deriving DecidableEq, Repr

/-- Tail of `Exec` after the release signal: `command.Wait`, then the
return (normal exit status, or the non-exit wait failure), draining the
deferred cleanups `defers`. -/
def execFinish (env : ExecEnv) (evs defers : List Event) : ExecResult :=
  match env.waitRes with
  | WaitResult.otherError e =>
      { exitCode := -1, error := some e, events := evs ++ [Event.waitEv] ++ defers }
  | _ =>
      { exitCode := env.exitStatus, error := none,
        events := evs ++ [Event.waitEv] ++ defers }

/-- Tail of `Exec` after successful network initialization: register the deferred
`TeardownNetworking`, close the parent's pipe endpoint (the release
signal), run the caller's start callback if supplied, then wait. -/
def execRelease (env : ExecEnv) (evs defers : List Event) : ExecResult :=
  execFinish env
    ((evs ++ [Event.pipeCloseEv]) ++
      (if env.hasStartCallback then [Event.callbackEv] else []))
    (Event.teardownNetEv :: defers)

/-- Tail of `Exec` from the `InitializeNetworking` call on: failure kills and
waits the child and returns; success proceeds to the release phase. -/
def execNet (env : ExecEnv) (container : Container) (evs defers : List Event) :
    ExecResult :=
  match (InitializeNetworking env.net container env.childPid).1 with
  | some e =>
      { exitCode := -1, error := some e,
        events := (evs ++ [Event.initNetEv]) ++ [Event.killEv, Event.waitEv] ++ defers }
  | none => execRelease env (evs ++ [Event.initNetEv]) defers

/-- Tail of `Exec` from the `SetupCgroups` call on: failure kills and waits the
child and returns; on success a non-nil handle registers its deferred
`Cleanup` before networking. -/
def execCgroups (env : ExecEnv) (container : Container) (evs defers : List Event) :
    ExecResult :=
  match SetupCgroups env.cg container env.childPid with
  | (_, some e) =>
      { exitCode := -1, error := some e,
        events := (evs ++ [Event.setupCgroupsEv]) ++ [Event.killEv, Event.waitEv] ++ defers }
  | (some _, none) =>
      execNet env container (evs ++ [Event.setupCgroupsEv])
        (Event.cleanupCgroupEv :: defers)
  | (none, none) => execNet env container (evs ++ [Event.setupCgroupsEv]) defers

/-- Tail of `Exec` from `GetProcessStartTime` on: a start-time read failure
returns at once; a `WritePid` failure kills and waits the child and
returns; success registers the deferred `DeletePid`. -/
def execRecord (env : ExecEnv) (container : Container) (evs defers : List Event) :
    ExecResult :=
  match env.getStartTimeRes with
  | some e =>
      { exitCode := -1, error := some e,
        events := (evs ++ [Event.getStartTimeEv]) ++ defers }
  | none =>
      match env.writePidRes with
      | some e =>
          { exitCode := -1, error := some e,
            events := (evs ++ [Event.getStartTimeEv, Event.writePidEv]) ++
              [Event.killEv, Event.waitEv] ++ defers }
      | none =>
          execCgroups env container
            (evs ++ [Event.getStartTimeEv, Event.writePidEv])
            (Event.deletePidEv :: defers)

/-- Tail of `Exec` from `command.Start` on. -/
def execStart (env : ExecEnv) (container : Container) (evs defers : List Event) :
    ExecResult :=
  match env.commandStartRes with
  | some e =>
      { exitCode := -1, error := some e,
        events := (evs ++ [Event.commandStartEv]) ++ defers }
  | none => execRecord env container (evs ++ [Event.commandStartEv]) defers

/-- Tail of `Exec` from `term.Attach` on: attach failure returns with nothing
deferred; success registers the deferred `term.Close`. -/
def execAttach (env : ExecEnv) (container : Container) (evs : List Event) :
    ExecResult :=
  match env.termAttachRes with
  | some e => { exitCode := -1, error := some e, events := evs ++ [Event.termAttachEv] }
  | none => execStart env container (evs ++ [Event.termAttachEv]) [Event.termCloseEv]

/-- Function `Exec` from the source, as a function of the call-outcome oracles:
create the sync pipe, optionally allocate the terminal master/console
pair and hand it to the terminal, build the child command, attach the
terminal, start the child, record its pid and start time, apply cgroups,
initialize networking, close the parent pipe end, optionally run the
start callback, and wait — with kill-and-wait on the record, cgroup and
network failure paths and `defer`-based unwinding of the acquired
resources on return. -/
def Exec (env : ExecEnv) (container : Container) : ExecResult :=
  match env.newSyncPipeRes with
  | some e => { exitCode := -1, error := some e, events := [Event.newSyncPipeEv] }
  | none =>
      match container.Tty with
      | true =>
          match env.createMasterRes with
          | some e =>
              { exitCode := -1, error := some e,
                events := [Event.newSyncPipeEv, Event.createMasterEv] }
          | none =>
              execAttach env container
                [Event.newSyncPipeEv, Event.createMasterEv, Event.setMasterEv]
      | false => execAttach env container [Event.newSyncPipeEv]

/-! ## Path characterizations of `Exec` -/

/-- The events preceding `term.Attach`: pipe creation, and on a tty
container also the master/console allocation and `term.SetMaster`. -/
def preEvs (container : Container) : List Event :=
  if container.Tty then
    [Event.newSyncPipeEv, Event.createMasterEv, Event.setMasterEv]
  else [Event.newSyncPipeEv]

/-- The deferred cgroup cleanup events for a given handle. -/
def cleanupEvs : Option ActiveCgroup → List Event
  | some _ => [Event.cleanupCgroupEv]
  | none => []

/-- The optional start-callback event. -/
def cbEvs (env : ExecEnv) : List Event :=
  if env.hasStartCallback then [Event.callbackEv] else []

/-- The exit code `Exec` returns after `command.Wait`. -/
def waitExitCode (env : ExecEnv) : Int :=
  match env.waitRes with
  | WaitResult.otherError _ => -1
  | _ => env.exitStatus

/-- The error `Exec` returns after `command.Wait`. -/
def waitExitErr (env : ExecEnv) : Option GoError :=
  match env.waitRes with
  | WaitResult.otherError e => some e
  | _ => none

lemma exec_pipe_fail (env : ExecEnv) (container : Container) (e : GoError)
    (h : env.newSyncPipeRes = some e) :
    Exec env container =
      { exitCode := -1, error := some e, events := [Event.newSyncPipeEv] } := by
  simp [Exec, h]

lemma exec_master_fail (env : ExecEnv) (container : Container) (e : GoError)
    (h0 : env.newSyncPipeRes = none) (ht : container.Tty = true)
    (h : env.createMasterRes = some e) :
    Exec env container =
      { exitCode := -1, error := some e,
        events := [Event.newSyncPipeEv, Event.createMasterEv] } := by
  simp [Exec, h0, ht, h]

lemma exec_attach_fail (env : ExecEnv) (container : Container) (e : GoError)
    (h0 : env.newSyncPipeRes = none)
    (h1 : container.Tty = true → env.createMasterRes = none)
    (h2 : env.termAttachRes = some e) :
    Exec env container =
      { exitCode := -1, error := some e,
        events := preEvs container ++ [Event.termAttachEv] } := by
  cases ht : container.Tty with
  | true => simp [Exec, execAttach, h0, ht, h1 ht, h2, preEvs]
  | false => simp [Exec, execAttach, h0, ht, h2, preEvs]

lemma exec_start_fail (env : ExecEnv) (container : Container) (e : GoError)
    (h0 : env.newSyncPipeRes = none)
    (h1 : container.Tty = true → env.createMasterRes = none)
    (h2 : env.termAttachRes = none)
    (h3 : env.commandStartRes = some e) :
    Exec env container =
      { exitCode := -1, error := some e,
        events := preEvs container ++
          [Event.termAttachEv, Event.commandStartEv, Event.termCloseEv] } := by
  cases ht : container.Tty with
  | true => simp [Exec, execAttach, execStart, h0, ht, h1 ht, h2, h3, preEvs]
  | false => simp [Exec, execAttach, execStart, h0, ht, h2, h3, preEvs]

lemma exec_startTime_fail (env : ExecEnv) (container : Container) (e : GoError)
    (h0 : env.newSyncPipeRes = none)
    (h1 : container.Tty = true → env.createMasterRes = none)
    (h2 : env.termAttachRes = none)
    (h3 : env.commandStartRes = none)
    (h4 : env.getStartTimeRes = some e) :
    Exec env container =
      { exitCode := -1, error := some e,
        events := preEvs container ++
          [Event.termAttachEv, Event.commandStartEv, Event.getStartTimeEv,
            Event.termCloseEv] } := by
  cases ht : container.Tty with
  | true => simp [Exec, execAttach, execStart, execRecord, h0, ht, h1 ht, h2, h3, h4, preEvs]
  | false => simp [Exec, execAttach, execStart, execRecord, h0, ht, h2, h3, h4, preEvs]

lemma exec_writePid_fail (env : ExecEnv) (container : Container) (e : GoError)
    (h0 : env.newSyncPipeRes = none)
    (h1 : container.Tty = true → env.createMasterRes = none)
    (h2 : env.termAttachRes = none)
    (h3 : env.commandStartRes = none)
    (h4 : env.getStartTimeRes = none)
    (h5 : env.writePidRes = some e) :
    Exec env container =
      { exitCode := -1, error := some e,
        events := preEvs container ++
          [Event.termAttachEv, Event.commandStartEv, Event.getStartTimeEv,
            Event.writePidEv, Event.killEv, Event.waitEv, Event.termCloseEv] } := by
  cases ht : container.Tty with
  | true =>
      simp [Exec, execAttach, execStart, execRecord, h0, ht, h1 ht, h2, h3, h4, h5, preEvs]
  | false =>
      simp [Exec, execAttach, execStart, execRecord, h0, ht, h2, h3, h4, h5, preEvs]

lemma exec_cgroup_fail (env : ExecEnv) (container : Container) (e : GoError)
    (h0 : env.newSyncPipeRes = none)
    (h1 : container.Tty = true → env.createMasterRes = none)
    (h2 : env.termAttachRes = none)
    (h3 : env.commandStartRes = none)
    (h4 : env.getStartTimeRes = none)
    (h5 : env.writePidRes = none)
    (hcg : (SetupCgroups env.cg container env.childPid).2 = some e) :
    Exec env container =
      { exitCode := -1, error := some e,
        events := preEvs container ++
          [Event.termAttachEv, Event.commandStartEv, Event.getStartTimeEv,
            Event.writePidEv, Event.setupCgroupsEv, Event.killEv, Event.waitEv,
            Event.deletePidEv, Event.termCloseEv] } := by
  rcases hsc : SetupCgroups env.cg container env.childPid with ⟨cl, ce⟩
  rw [hsc] at hcg
  have hce : ce = some e := hcg
  subst hce
  cases ht : container.Tty with
  | true =>
      simp [Exec, execAttach, execStart, execRecord, execCgroups,
        h0, ht, h1 ht, h2, h3, h4, h5, hsc, preEvs]
  | false =>
      simp [Exec, execAttach, execStart, execRecord, execCgroups,
        h0, ht, h2, h3, h4, h5, hsc, preEvs]

lemma exec_net_fail (env : ExecEnv) (container : Container) (e : GoError)
    (h0 : env.newSyncPipeRes = none)
    (h1 : container.Tty = true → env.createMasterRes = none)
    (h2 : env.termAttachRes = none)
    (h3 : env.commandStartRes = none)
    (h4 : env.getStartTimeRes = none)
    (h5 : env.writePidRes = none)
    (hcg : (SetupCgroups env.cg container env.childPid).2 = none)
    (hnet : (InitializeNetworking env.net container env.childPid).1 = some e) :
    Exec env container =
      { exitCode := -1, error := some e,
        events := preEvs container ++
          [Event.termAttachEv, Event.commandStartEv, Event.getStartTimeEv,
            Event.writePidEv, Event.setupCgroupsEv, Event.initNetEv,
            Event.killEv, Event.waitEv] ++
          cleanupEvs (SetupCgroups env.cg container env.childPid).1 ++
          [Event.deletePidEv, Event.termCloseEv] } := by
  rcases hsc : SetupCgroups env.cg container env.childPid with ⟨cl, ce⟩
  rw [hsc] at hcg
  have hce : ce = none := hcg
  subst hce
  cases cl with
  | none =>
      cases ht : container.Tty with
      | true =>
          simp [Exec, execAttach, execStart, execRecord, execCgroups, execNet,
            h0, ht, h1 ht, h2, h3, h4, h5, hsc, hnet, preEvs, cleanupEvs]
      | false =>
          simp [Exec, execAttach, execStart, execRecord, execCgroups, execNet,
            h0, ht, h2, h3, h4, h5, hsc, hnet, preEvs, cleanupEvs]
  | some a =>
      cases ht : container.Tty with
      | true =>
          simp [Exec, execAttach, execStart, execRecord, execCgroups, execNet,
            h0, ht, h1 ht, h2, h3, h4, h5, hsc, hnet, preEvs, cleanupEvs]
      | false =>
          simp [Exec, execAttach, execStart, execRecord, execCgroups, execNet,
            h0, ht, h2, h3, h4, h5, hsc, hnet, preEvs, cleanupEvs]

lemma exec_success (env : ExecEnv) (container : Container)
    (h0 : env.newSyncPipeRes = none)
    (h1 : container.Tty = true → env.createMasterRes = none)
    (h2 : env.termAttachRes = none)
    (h3 : env.commandStartRes = none)
    (h4 : env.getStartTimeRes = none)
    (h5 : env.writePidRes = none)
    (hcg : (SetupCgroups env.cg container env.childPid).2 = none)
    (hnet : (InitializeNetworking env.net container env.childPid).1 = none) :
    Exec env container =
      { exitCode := waitExitCode env, error := waitExitErr env,
        events := preEvs container ++
          [Event.termAttachEv, Event.commandStartEv, Event.getStartTimeEv,
            Event.writePidEv, Event.setupCgroupsEv, Event.initNetEv,
            Event.pipeCloseEv] ++ cbEvs env ++
          [Event.waitEv, Event.teardownNetEv] ++
          cleanupEvs (SetupCgroups env.cg container env.childPid).1 ++
          [Event.deletePidEv, Event.termCloseEv] } := by
  rcases hsc : SetupCgroups env.cg container env.childPid with ⟨cl, ce⟩
  rw [hsc] at hcg
  have hce : ce = none := hcg
  subst hce
  cases cl with
  | none =>
      cases ht : container.Tty with
      | true =>
          cases hw : env.waitRes <;>
            simp [Exec, execAttach, execStart, execRecord, execCgroups, execNet,
              execRelease, execFinish, h0, ht, h1 ht, h2, h3, h4, h5, hsc,
              hnet, hw, preEvs, cleanupEvs, cbEvs, waitExitCode, waitExitErr]
      | false =>
          cases hw : env.waitRes <;>
            simp [Exec, execAttach, execStart, execRecord, execCgroups, execNet,
              execRelease, execFinish, h0, ht, h2, h3, h4, h5, hsc,
              hnet, hw, preEvs, cleanupEvs, cbEvs, waitExitCode, waitExitErr]
  | some a =>
      cases ht : container.Tty with
      | true =>
          cases hw : env.waitRes <;>
            simp [Exec, execAttach, execStart, execRecord, execCgroups, execNet,
              execRelease, execFinish, h0, ht, h1 ht, h2, h3, h4, h5, hsc,
              hnet, hw, preEvs, cleanupEvs, cbEvs, waitExitCode, waitExitErr]
      | false =>
          cases hw : env.waitRes <;>
            simp [Exec, execAttach, execStart, execRecord, execCgroups, execNet,
              execRelease, execFinish, h0, ht, h2, h3, h4, h5, hsc,
              hnet, hw, preEvs, cleanupEvs, cbEvs, waitExitCode, waitExitErr]

/-! ## Claim theorems -/

/-- C2: `GetNamespaceFlags` returns exactly the bitwise OR of the
registered flag values of the enabled, recognized namespaces; disabled
entries and unrecognized names contribute 0 and cause no error, the
result is independent of iteration order, and the empty mapping yields
0. -/
theorem c2_namespace_flags_or_enabled_registered
    (g : String → Option NamespaceInfo) (l l' : List (String × Bool))
    (h : l.Perm l') :
    GetNamespaceFlags g l = specNamespaceFlags g l ∧
    GetNamespaceFlags g l = GetNamespaceFlags g l' ∧
    GetNamespaceFlags g [] = 0 :=
  ⟨getNamespaceFlags_eq_spec g l, getNamespaceFlags_perm g h, rfl⟩

/-- Witness for C2 at the spec's own example: `NEWNET` registered as
`0x40000000`, an unknown name alongside it, and the two iteration
orders. -/
theorem c2_namespace_flags_witness :
    List.Perm ([("NEWNET", true), ("bogus", true)] : List (String × Bool))
        [("bogus", true), ("NEWNET", true)] ∧
    GetNamespaceFlags
        (fun s => if s = "NEWNET" then some ⟨1073741824⟩ else none)
        [("NEWNET", true), ("bogus", true)] =
      specNamespaceFlags
        (fun s => if s = "NEWNET" then some ⟨1073741824⟩ else none)
        [("NEWNET", true), ("bogus", true)] ∧
    GetNamespaceFlags
        (fun s => if s = "NEWNET" then some ⟨1073741824⟩ else none)
        [("NEWNET", true), ("bogus", true)] =
      GetNamespaceFlags
        (fun s => if s = "NEWNET" then some ⟨1073741824⟩ else none)
        [("bogus", true), ("NEWNET", true)] :=
  ⟨by decide,
    (c2_namespace_flags_or_enabled_registered
      (fun s => if s = "NEWNET" then some ⟨1073741824⟩ else none)
      [("NEWNET", true), ("bogus", true)]
      [("bogus", true), ("NEWNET", true)] (by decide)).1,
    (c2_namespace_flags_or_enabled_registered
      (fun s => if s = "NEWNET" then some ⟨1073741824⟩ else none)
      [("NEWNET", true), ("bogus", true)]
      [("bogus", true), ("NEWNET", true)] (by decide)).2.1⟩

/-- C3: with no cgroup spec `SetupCgroups` returns a nil handle and nil
error; with a spec it deterministically selects the systemd backend
exactly when the host init system manages cgroups and the native fs
backend otherwise, returning that backend's result. -/
theorem c3_setupCgroups_backend_selection
    (cg : CgroupEnv) (container : Container) (nspid : Int) :
    (container.Cgroups = none → SetupCgroups cg container nspid = (none, none)) ∧
    (∀ c, container.Cgroups = some c →
      (cg.useSystemd = true →
        SetupCgroups cg container nspid = cg.systemdApply c nspid) ∧
      (cg.useSystemd = false →
        SetupCgroups cg container nspid = cg.fsApply c nspid)) := by
  refine ⟨fun h => by simp [SetupCgroups, h], fun c h => ⟨fun hu => ?_, fun hu => ?_⟩⟩ <;>
    simp [SetupCgroups, h, hu]

/-- Cgroup environment fixture for the C3 witness. -/
def c3cgEnv : CgroupEnv :=
  { useSystemd := true,
    systemdApply := fun _ _ => (some ⟨1⟩, none),
    fsApply := fun _ _ => (none, some 9) }

/-- Witness for C3: a container without a cgroup spec yields `(nil, nil)`;
one with a spec on a systemd host yields the systemd backend's result. -/
theorem c3_setupCgroups_backend_selection_witness :
    SetupCgroups c3cgEnv ⟨false, none, [], [], []⟩ 5 = (none, none) ∧
    SetupCgroups c3cgEnv ⟨false, some ⟨2⟩, [], [], []⟩ 5 = (some ⟨1⟩, none) :=
  ⟨(c3_setupCgroups_backend_selection c3cgEnv ⟨false, none, [], [], []⟩ 5).1 rfl,
    ((c3_setupCgroups_backend_selection c3cgEnv ⟨false, some ⟨2⟩, [], [], []⟩ 5).2
        ⟨2⟩ rfl).1 rfl⟩

lemma relocate_trace (env : NetEnv) (ifaces : List NetworkInterface) (nspid : Int) :
    (relocateInterfaces env ifaces nspid).1 = expectedIfaceTrace ifaces nspid := by
  induction ifaces with
  | nil => rfl
  | cons i rest ih =>
      simp [relocateInterfaces, expectedIfaceTrace, relocateInterface, ih]

lemma teardown_trace (env : NetEnv) (ifaces : List NetworkInterface) :
    (teardownInterfaces env ifaces).1 = expectedIfaceTrace ifaces 1 := by
  induction ifaces with
  | nil => rfl
  | cons i rest ih =>
      simp [teardownInterfaces, expectedIfaceTrace, teardownInterface, ih]

/-- C7: both the relocation loop (down, reassign to the child's
namespace, up) and the teardown loop (down, reassign to pid 1, up)
attempt every step for every interface: the attempted-operation trace is
exactly the full three-step sequence per interface, independent of every
interface-operation outcome oracle, and the value `InitializeNetworking`
returns is the sync-pipe send result, untouched by those outcomes. -/
theorem c7_interface_steps_best_effort
    (env : NetEnv) (container : Container) (nspid : Int) :
    (∀ ctx, runStrategies env container.Networks nspid [] = (ctx, none) →
      (InitializeNetworking env container nspid).2.1 =
          expectedIfaceTrace container.NetworkInterfaces nspid ∧
      (InitializeNetworking env container nspid).1 = env.sendToChild ctx) ∧
    (TeardownNetworking env container nspid).1 =
      expectedIfaceTrace container.NetworkInterfaces 1 := by
  refine ⟨fun ctx h => ?_, ?_⟩
  · simp [InitializeNetworking, h, relocate_trace]
  · simp [TeardownNetworking, teardown_trace]

/-- Network environment fixture for the C7 witness: every interface
operation fails, yet every step of every interface is still attempted. -/
def c7netEnv : NetEnv :=
  { getStrategy := fun _ => Except.error 3,
    ifaceDownRes := fun _ => some 11,
    setNsPidRes := fun _ _ => some 12,
    ifaceUpRes := fun _ => some 13,
    sendToChild := fun _ => none,
    openSelfNsRes := some 14,
    openPidNsRes := some 15,
    setnsToPidRes := some 16,
    setnsBackRes := some 17 }

/-- Witness for C7 on a container with two bound interfaces and failing
interface operations: both traces are the full three-step sequences. -/
theorem c7_interface_steps_best_effort_witness :
    (InitializeNetworking c7netEnv ⟨false, none, [], [], [⟨"veth0"⟩, ⟨"veth1"⟩]⟩ 9).2.1 =
        expectedIfaceTrace [⟨"veth0"⟩, ⟨"veth1"⟩] 9 ∧
    (TeardownNetworking c7netEnv ⟨false, none, [], [], [⟨"veth0"⟩, ⟨"veth1"⟩]⟩ 9).1 =
        expectedIfaceTrace [⟨"veth0"⟩, ⟨"veth1"⟩] 1 :=
  ⟨((c7_interface_steps_best_effort c7netEnv
        ⟨false, none, [], [], [⟨"veth0"⟩, ⟨"veth1"⟩]⟩ 9).1 [] (by decide)).1,
    (c7_interface_steps_best_effort c7netEnv
        ⟨false, none, [], [], [⟨"veth0"⟩, ⟨"veth1"⟩]⟩ 9).2⟩

/-- C10: when the interface lookup succeeds but the address is not a
valid CIDR, `SetInterfaceIp` returns the parse error and issues no
netlink request. -/
theorem c10_setInterfaceIp_invalid_cidr
    (env : NetlinkEnv) (name rawIp : String) (iface : Nat) (e : GoError)
    (h1 : env.interfaceByName name = Except.ok iface)
    (h2 : env.parseCIDR rawIp = Except.error e) :
    SetInterfaceIp env name rawIp = (some e, []) := by
  simp [SetInterfaceIp, h1, h2]

/-- Netlink environment fixture for the C10 witness. -/
def c10netlinkEnv : NetlinkEnv :=
  { interfaceByName := fun _ => Except.ok 3,
    parseCIDR := fun _ => Except.error 42,
    networkLinkAddIp := fun _ _ _ => none }

/-- Witness for C10: an existing interface with an unparsable address
string yields the parse error and an empty netlink request list. -/
theorem c10_setInterfaceIp_invalid_cidr_witness :
    SetInterfaceIp c10netlinkEnv "eth0" "not-a-cidr" = (some 42, []) :=
  c10_setInterfaceIp_invalid_cidr c10netlinkEnv "eth0" "not-a-cidr" 3 42 rfl rfl

/-- C1: with the child started, a setup-fatal failure injected at the
record step, the cgroup step or the network-initialization step makes
`Exec` kill and wait the child exactly once and return the error; and
once the pid record has been written successfully, `DeletePid` runs on
every subsequent exit path of `Exec`. -/
theorem c1_setup_fatal_kill_wait_and_pid_record
    (env : ExecEnv) (container : Container)
    (h0 : env.newSyncPipeRes = none)
    (h1 : container.Tty = true → env.createMasterRes = none)
    (h2 : env.termAttachRes = none)
    (h3 : env.commandStartRes = none)
    (h4 : env.getStartTimeRes = none) :
    ((env.writePidRes.isSome ∨
      (env.writePidRes = none ∧
        (SetupCgroups env.cg container env.childPid).2.isSome) ∨
      (env.writePidRes = none ∧
        (SetupCgroups env.cg container env.childPid).2 = none ∧
        (InitializeNetworking env.net container env.childPid).1.isSome)) →
      (Exec env container).events.count Event.killEv = 1 ∧
      (Exec env container).events.count Event.waitEv = 1 ∧
      (Exec env container).error.isSome) ∧
    (env.writePidRes = none →
      Event.deletePidEv ∈ (Exec env container).events) := by
  constructor
  · rintro (hw | ⟨hw, hcg⟩ | ⟨hw, hcg, hnet⟩)
    · obtain ⟨e, he⟩ := Option.isSome_iff_exists.mp hw
      rw [exec_writePid_fail env container e h0 h1 h2 h3 h4 he]
      refine ⟨?_, ?_, rfl⟩ <;>
        cases ht : container.Tty <;> simp [preEvs, ht]
    · obtain ⟨e, he⟩ := Option.isSome_iff_exists.mp hcg
      rw [exec_cgroup_fail env container e h0 h1 h2 h3 h4 hw he]
      refine ⟨?_, ?_, rfl⟩ <;>
        cases ht : container.Tty <;> simp [preEvs, ht]
    · obtain ⟨e, he⟩ := Option.isSome_iff_exists.mp hnet
      rw [exec_net_fail env container e h0 h1 h2 h3 h4 hw hcg he]
      refine ⟨?_, ?_, rfl⟩ <;>
        cases hcl : (SetupCgroups env.cg container env.childPid).1 <;>
          cases ht : container.Tty <;>
            simp [preEvs, cleanupEvs, ht, hcl]
  · intro hw
    cases hcg : (SetupCgroups env.cg container env.childPid).2 with
    | some e =>
        rw [exec_cgroup_fail env container e h0 h1 h2 h3 h4 hw hcg]
        cases ht : container.Tty <;> simp [preEvs, ht]
    | none =>
        cases hnet : (InitializeNetworking env.net container env.childPid).1 with
        | some e =>
            rw [exec_net_fail env container e h0 h1 h2 h3 h4 hw hcg hnet]
            cases hcl : (SetupCgroups env.cg container env.childPid).1 <;>
              cases ht : container.Tty <;>
                simp [preEvs, cleanupEvs, ht, hcl]
        | none =>
            rw [exec_success env container h0 h1 h2 h3 h4 hw hcg hnet]
            cases hcl : (SetupCgroups env.cg container env.childPid).1 <;>
              cases ht : container.Tty <;>
                cases hcb : env.hasStartCallback <;>
                  simp [preEvs, cleanupEvs, cbEvs, ht, hcb, hcl]

/-- Exec environment fixture for the C1 witness: the child starts, then
the pid-record write fails. -/
def c1execEnv : ExecEnv :=
  { newSyncPipeRes := none, createMasterRes := none, termAttachRes := none,
    commandStartRes := none, getStartTimeRes := none, writePidRes := some 5,
    cg := { useSystemd := false,
            systemdApply := fun _ _ => (none, none),
            fsApply := fun _ _ => (none, none) },
    net := { getStrategy := fun _ => Except.error 0,
             ifaceDownRes := fun _ => none, setNsPidRes := fun _ _ => none,
             ifaceUpRes := fun _ => none, sendToChild := fun _ => none,
             openSelfNsRes := none, openPidNsRes := none,
             setnsToPidRes := none, setnsBackRes := none },
    hasStartCallback := false, waitRes := WaitResult.normal,
    exitStatus := 0, childPid := 42 }

/-- Witness for C1 at a record-step failure: one kill, one wait, an
error returned. -/
theorem c1_setup_fatal_kill_wait_and_pid_record_witness :
    (Exec c1execEnv ⟨false, none, [], [], []⟩).events.count Event.killEv = 1 ∧
    (Exec c1execEnv ⟨false, none, [], [], []⟩).events.count Event.waitEv = 1 ∧
    (Exec c1execEnv ⟨false, none, [], [], []⟩).error.isSome :=
  (c1_setup_fatal_kill_wait_and_pid_record c1execEnv ⟨false, none, [], [], []⟩
      rfl (fun h => nomatch h) rfl rfl rfl).1 (Or.inl (by decide))

/-- C4: when parent-side setup succeeded, a wait that completes normally
(nil error or an exit-status error) makes `Exec` return the child's exit
status, including non-zero codes, with a nil error; a wait failure that
is not an exit-status error is returned as a fatal error with exit code
-1. -/
theorem c4_wait_exit_semantics
    (env : ExecEnv) (container : Container)
    (h0 : env.newSyncPipeRes = none)
    (h1 : container.Tty = true → env.createMasterRes = none)
    (h2 : env.termAttachRes = none)
    (h3 : env.commandStartRes = none)
    (h4 : env.getStartTimeRes = none)
    (h5 : env.writePidRes = none)
    (hcg : (SetupCgroups env.cg container env.childPid).2 = none)
    (hnet : (InitializeNetworking env.net container env.childPid).1 = none) :
    ((env.waitRes = WaitResult.normal ∨ env.waitRes = WaitResult.exitError) →
      (Exec env container).exitCode = env.exitStatus ∧
      (Exec env container).error = none) ∧
    (∀ e, env.waitRes = WaitResult.otherError e →
      (Exec env container).exitCode = -1 ∧
      (Exec env container).error = some e) := by
  rw [exec_success env container h0 h1 h2 h3 h4 h5 hcg hnet]
  constructor
  · rintro (hw | hw) <;> simp [waitExitCode, waitExitErr, hw]
  · intro e hw
    simp [waitExitCode, waitExitErr, hw]

/-- Exec environment fixture for the C4 witness: full setup success and a
child that exits with status 17 (an `ExitError`). -/
def c4execEnv : ExecEnv :=
  { newSyncPipeRes := none, createMasterRes := none, termAttachRes := none,
    commandStartRes := none, getStartTimeRes := none, writePidRes := none,
    cg := { useSystemd := false,
            systemdApply := fun _ _ => (none, none),
            fsApply := fun _ _ => (none, none) },
    net := { getStrategy := fun _ => Except.error 0,
             ifaceDownRes := fun _ => none, setNsPidRes := fun _ _ => none,
             ifaceUpRes := fun _ => none, sendToChild := fun _ => none,
             openSelfNsRes := none, openPidNsRes := none,
             setnsToPidRes := none, setnsBackRes := none },
    hasStartCallback := false, waitRes := WaitResult.exitError,
    exitStatus := 17, childPid := 42 }

/-- Witness for C4: the non-zero exit status 17 is returned with a nil
error. -/
theorem c4_wait_exit_semantics_witness :
    (Exec c4execEnv ⟨false, none, [], [], []⟩).exitCode = 17 ∧
    (Exec c4execEnv ⟨false, none, [], [], []⟩).error = none :=
  (c4_wait_exit_semantics c4execEnv ⟨false, none, [], [], []⟩
      rfl (fun h => nomatch h) rfl rfl rfl rfl rfl rfl).1 (Or.inr rfl)

/-- The events of a successful run, shared by the statements below. -/
def successEvs (env : ExecEnv) (container : Container) : List Event :=
  preEvs container ++
    [Event.termAttachEv, Event.commandStartEv, Event.getStartTimeEv,
      Event.writePidEv, Event.setupCgroupsEv, Event.initNetEv,
      Event.pipeCloseEv] ++ cbEvs env ++
    [Event.waitEv, Event.teardownNetEv] ++
    cleanupEvs (SetupCgroups env.cg container env.childPid).1 ++
    [Event.deletePidEv, Event.termCloseEv]

/-- Exhaustive case split over the control paths of `Exec`: exactly one
of the nine exit paths is taken, and on each the result is the
corresponding characterization. -/
lemma exec_cases (env : ExecEnv) (container : Container) :
    (∃ e, env.newSyncPipeRes = some e ∧
      Exec env container =
        { exitCode := -1, error := some e, events := [Event.newSyncPipeEv] }) ∨
    (∃ e, container.Tty = true ∧ env.createMasterRes = some e ∧
      Exec env container =
        { exitCode := -1, error := some e,
          events := [Event.newSyncPipeEv, Event.createMasterEv] }) ∨
    (∃ e, env.termAttachRes = some e ∧
      Exec env container =
        { exitCode := -1, error := some e,
          events := preEvs container ++ [Event.termAttachEv] }) ∨
    (∃ e, env.commandStartRes = some e ∧
      Exec env container =
        { exitCode := -1, error := some e,
          events := preEvs container ++
            [Event.termAttachEv, Event.commandStartEv, Event.termCloseEv] }) ∨
    (∃ e, env.getStartTimeRes = some e ∧
      Exec env container =
        { exitCode := -1, error := some e,
          events := preEvs container ++
            [Event.termAttachEv, Event.commandStartEv, Event.getStartTimeEv,
              Event.termCloseEv] }) ∨
    (∃ e, env.writePidRes = some e ∧
      Exec env container =
        { exitCode := -1, error := some e,
          events := preEvs container ++
            [Event.termAttachEv, Event.commandStartEv, Event.getStartTimeEv,
              Event.writePidEv, Event.killEv, Event.waitEv, Event.termCloseEv] }) ∨
    (∃ e, (SetupCgroups env.cg container env.childPid).2 = some e ∧
      Exec env container =
        { exitCode := -1, error := some e,
          events := preEvs container ++
            [Event.termAttachEv, Event.commandStartEv, Event.getStartTimeEv,
              Event.writePidEv, Event.setupCgroupsEv, Event.killEv, Event.waitEv,
              Event.deletePidEv, Event.termCloseEv] }) ∨
    (∃ e, (InitializeNetworking env.net container env.childPid).1 = some e ∧
      (SetupCgroups env.cg container env.childPid).2 = none ∧
      Exec env container =
        { exitCode := -1, error := some e,
          events := preEvs container ++
            [Event.termAttachEv, Event.commandStartEv, Event.getStartTimeEv,
              Event.writePidEv, Event.setupCgroupsEv, Event.initNetEv,
              Event.killEv, Event.waitEv] ++
            cleanupEvs (SetupCgroups env.cg container env.childPid).1 ++
            [Event.deletePidEv, Event.termCloseEv] }) ∨
    (env.newSyncPipeRes = none ∧
      (!container.Tty || env.createMasterRes.isNone) = true ∧
      env.termAttachRes = none ∧ env.commandStartRes = none ∧
      env.getStartTimeRes = none ∧ env.writePidRes = none ∧
      (SetupCgroups env.cg container env.childPid).2 = none ∧
      (InitializeNetworking env.net container env.childPid).1 = none ∧
      Exec env container =
        { exitCode := waitExitCode env, error := waitExitErr env,
          events := successEvs env container }) := by
  rcases (Option.eq_none_or_eq_some env.newSyncPipeRes).symm with ⟨e0, hp⟩ | hp
  · exact Or.inl ⟨e0, hp, exec_pipe_fail env container e0 hp⟩
  · have rest : (container.Tty = true → env.createMasterRes = none) →
          (!container.Tty || env.createMasterRes.isNone) = true →
          (∃ e, env.termAttachRes = some e ∧
            Exec env container =
              { exitCode := -1, error := some e,
                events := preEvs container ++ [Event.termAttachEv] }) ∨
          (∃ e, env.commandStartRes = some e ∧
            Exec env container =
              { exitCode := -1, error := some e,
                events := preEvs container ++
                  [Event.termAttachEv, Event.commandStartEv, Event.termCloseEv] }) ∨
          (∃ e, env.getStartTimeRes = some e ∧
            Exec env container =
              { exitCode := -1, error := some e,
                events := preEvs container ++
                  [Event.termAttachEv, Event.commandStartEv, Event.getStartTimeEv,
                    Event.termCloseEv] }) ∨
          (∃ e, env.writePidRes = some e ∧
            Exec env container =
              { exitCode := -1, error := some e,
                events := preEvs container ++
                  [Event.termAttachEv, Event.commandStartEv, Event.getStartTimeEv,
                    Event.writePidEv, Event.killEv, Event.waitEv,
                    Event.termCloseEv] }) ∨
          (∃ e, (SetupCgroups env.cg container env.childPid).2 = some e ∧
            Exec env container =
              { exitCode := -1, error := some e,
                events := preEvs container ++
                  [Event.termAttachEv, Event.commandStartEv, Event.getStartTimeEv,
                    Event.writePidEv, Event.setupCgroupsEv, Event.killEv,
                    Event.waitEv, Event.deletePidEv, Event.termCloseEv] }) ∨
          (∃ e, (InitializeNetworking env.net container env.childPid).1 = some e ∧
            (SetupCgroups env.cg container env.childPid).2 = none ∧
            Exec env container =
              { exitCode := -1, error := some e,
                events := preEvs container ++
                  [Event.termAttachEv, Event.commandStartEv, Event.getStartTimeEv,
                    Event.writePidEv, Event.setupCgroupsEv, Event.initNetEv,
                    Event.killEv, Event.waitEv] ++
                  cleanupEvs (SetupCgroups env.cg container env.childPid).1 ++
                  [Event.deletePidEv, Event.termCloseEv] }) ∨
          (env.newSyncPipeRes = none ∧
            (!container.Tty || env.createMasterRes.isNone) = true ∧
            env.termAttachRes = none ∧ env.commandStartRes = none ∧
            env.getStartTimeRes = none ∧ env.writePidRes = none ∧
            (SetupCgroups env.cg container env.childPid).2 = none ∧
            (InitializeNetworking env.net container env.childPid).1 = none ∧
            Exec env container =
              { exitCode := waitExitCode env, error := waitExitErr env,
                events := successEvs env container }) := by
        intro h1 hbool
        rcases (Option.eq_none_or_eq_some env.termAttachRes).symm with ⟨e, ha⟩ | ha
        · exact Or.inl ⟨e, ha, exec_attach_fail env container e hp h1 ha⟩
        rcases (Option.eq_none_or_eq_some env.commandStartRes).symm with ⟨e, hs⟩ | hs
        · exact Or.inr (Or.inl ⟨e, hs, exec_start_fail env container e hp h1 ha hs⟩)
        rcases (Option.eq_none_or_eq_some env.getStartTimeRes).symm with ⟨e, hg⟩ | hg
        · exact Or.inr (Or.inr (Or.inl
            ⟨e, hg, exec_startTime_fail env container e hp h1 ha hs hg⟩))
        rcases (Option.eq_none_or_eq_some env.writePidRes).symm with ⟨e, hwp⟩ | hwp
        · exact Or.inr (Or.inr (Or.inr (Or.inl
            ⟨e, hwp, exec_writePid_fail env container e hp h1 ha hs hg hwp⟩)))
        rcases (Option.eq_none_or_eq_some
            (SetupCgroups env.cg container env.childPid).2).symm with ⟨e, hcg⟩ | hcg
        · exact Or.inr (Or.inr (Or.inr (Or.inr (Or.inl
            ⟨e, hcg, exec_cgroup_fail env container e hp h1 ha hs hg hwp hcg⟩))))
        rcases (Option.eq_none_or_eq_some
            (InitializeNetworking env.net container env.childPid).1).symm with ⟨e, hnet⟩ | hnet
        · exact Or.inr (Or.inr (Or.inr (Or.inr (Or.inr (Or.inl
            ⟨e, hnet, hcg,
              exec_net_fail env container e hp h1 ha hs hg hwp hcg hnet⟩)))))
        exact Or.inr (Or.inr (Or.inr (Or.inr (Or.inr (Or.inr
          ⟨hp, hbool, ha, hs, hg, hwp, hcg, hnet,
            exec_success env container hp h1 ha hs hg hwp hcg hnet⟩)))))
    rcases Bool.eq_false_or_eq_true container.Tty with ht | ht
    · rcases (Option.eq_none_or_eq_some env.createMasterRes).symm with ⟨e, hc⟩ | hc
      · exact Or.inr (Or.inl ⟨e, ht, hc, exec_master_fail env container e hp ht hc⟩)
      · exact Or.inr (Or.inr (rest (fun _ => hc) (by simp [ht, hc])))
    · exact Or.inr (Or.inr (rest (by simp [ht]) (by simp [ht])))

lemma count_preEvs_zero (c : Container) {x : Event}
    (h1 : x ≠ Event.newSyncPipeEv) (h2 : x ≠ Event.createMasterEv)
    (h3 : x ≠ Event.setMasterEv) : (preEvs c).count x = 0 := by
  rw [List.count_eq_zero]
  cases h : c.Tty <;> simp [preEvs, h, h1, h2, h3]

lemma count_cleanupEvs_zero (o : Option ActiveCgroup) {x : Event}
    (h : x ≠ Event.cleanupCgroupEv) : (cleanupEvs o).count x = 0 := by
  rw [List.count_eq_zero]
  cases o <;> simp [cleanupEvs, h]

lemma count_cbEvs_zero (env : ExecEnv) {x : Event}
    (h : x ≠ Event.callbackEv) : (cbEvs env).count x = 0 := by
  rw [List.count_eq_zero]
  cases hc : env.hasStartCallback <;> simp [cbEvs, hc, h]

lemma count_successEvs (env : ExecEnv) (container : Container) {x : Event}
    (h1 : x ≠ Event.newSyncPipeEv) (h2 : x ≠ Event.createMasterEv)
    (h3 : x ≠ Event.setMasterEv) (h4 : x ≠ Event.cleanupCgroupEv)
    (h5 : x ≠ Event.callbackEv) :
    (successEvs env container).count x =
      List.count x
        [Event.termAttachEv, Event.commandStartEv, Event.getStartTimeEv,
          Event.writePidEv, Event.setupCgroupsEv, Event.initNetEv,
          Event.pipeCloseEv, Event.waitEv, Event.teardownNetEv,
          Event.deletePidEv, Event.termCloseEv] := by
  simp only [successEvs, List.count_append, count_preEvs_zero container h1 h2 h3,
    count_cleanupEvs_zero _ h4, count_cbEvs_zero env h5]
  simp [List.count_cons, List.count_append]
  omega

/-- C9: whenever `Exec` returns a non-nil error, the returned exit code
is -1; when the error is nil the returned integer is the child's exit
status. -/
theorem c9_error_exit_code
    (env : ExecEnv) (container : Container) :
    (∀ e, (Exec env container).error = some e →
      (Exec env container).exitCode = -1) ∧
    ((Exec env container).error = none →
      (Exec env container).exitCode = env.exitStatus) := by
  rcases exec_cases env container with
    ⟨e, _, hE⟩ | ⟨e, _, _, hE⟩ | ⟨e, _, hE⟩ | ⟨e, _, hE⟩ | ⟨e, _, hE⟩ | ⟨e, _, hE⟩ |
    ⟨e, _, hE⟩ | ⟨e, _, _, hE⟩ | ⟨_, _, _, _, _, _, _, _, hE⟩
  all_goals rw [hE]
  all_goals try simp
  cases hw : env.waitRes <;> simp [waitExitCode, waitExitErr, hw]

/-- Exec environment fixture for the C9 witness: the terminal attach
fails with error 5. -/
def c9execEnv : ExecEnv :=
  { newSyncPipeRes := none, createMasterRes := none, termAttachRes := some 5,
    commandStartRes := none, getStartTimeRes := none, writePidRes := none,
    cg := { useSystemd := false,
            systemdApply := fun _ _ => (none, none),
            fsApply := fun _ _ => (none, none) },
    net := { getStrategy := fun _ => Except.error 0,
             ifaceDownRes := fun _ => none, setNsPidRes := fun _ _ => none,
             ifaceUpRes := fun _ => none, sendToChild := fun _ => none,
             openSelfNsRes := none, openPidNsRes := none,
             setnsToPidRes := none, setnsBackRes := none },
    hasStartCallback := false, waitRes := WaitResult.normal,
    exitStatus := 7, childPid := 42 }

/-- Witness for C9: a failing launch returns exit code -1. -/
theorem c9_error_exit_code_witness :
    (Exec c9execEnv ⟨false, none, [], [], []⟩).exitCode = -1 :=
  (c9_error_exit_code c9execEnv ⟨false, none, [], [], []⟩).1 5 (by decide)

/-- C8: in every run of `Exec` that returns no error, `SetupCgroups` was
invoked and returned without error, and its invocation event occurs
strictly before the `InitializeNetworking` invocation event in the
supervisor trace (each occurring exactly once). -/
theorem c8_cgroups_before_networking
    (env : ExecEnv) (container : Container)
    (herr : (Exec env container).error = none) :
    (SetupCgroups env.cg container env.childPid).2 = none ∧
    (Exec env container).events.count Event.setupCgroupsEv = 1 ∧
    (Exec env container).events.count Event.initNetEv = 1 ∧
    ∃ l₁ l₂ l₃, (Exec env container).events =
      l₁ ++ Event.setupCgroupsEv :: (l₂ ++ Event.initNetEv :: l₃) := by
  rcases exec_cases env container with
    ⟨e, _, hE⟩ | ⟨e, _, _, hE⟩ | ⟨e, _, hE⟩ | ⟨e, _, hE⟩ | ⟨e, _, hE⟩ | ⟨e, _, hE⟩ |
    ⟨e, _, hE⟩ | ⟨e, _, _, hE⟩ | ⟨_, _, _, _, _, _, hcg, _, hE⟩
  all_goals rw [hE] at herr
  all_goals try simp at herr
  rw [hE]
  refine ⟨hcg, ?_, ?_,
    preEvs container ++
      [Event.termAttachEv, Event.commandStartEv, Event.getStartTimeEv,
        Event.writePidEv], [],
    Event.pipeCloseEv :: cbEvs env ++
      [Event.waitEv, Event.teardownNetEv] ++
      cleanupEvs (SetupCgroups env.cg container env.childPid).1 ++
      [Event.deletePidEv, Event.termCloseEv], ?_⟩
  · rw [count_successEvs env container (by decide) (by decide) (by decide)
      (by decide) (by decide)]
    decide
  · rw [count_successEvs env container (by decide) (by decide) (by decide)
      (by decide) (by decide)]
    decide
  · simp [successEvs, List.append_assoc]

/-- Exec environment fixture for the C8 witness: a fully successful
launch. -/
def c8execEnv : ExecEnv :=
  { newSyncPipeRes := none, createMasterRes := none, termAttachRes := none,
    commandStartRes := none, getStartTimeRes := none, writePidRes := none,
    cg := { useSystemd := false,
            systemdApply := fun _ _ => (none, none),
            fsApply := fun _ _ => (none, none) },
    net := { getStrategy := fun _ => Except.error 0,
             ifaceDownRes := fun _ => none, setNsPidRes := fun _ _ => none,
             ifaceUpRes := fun _ => none, sendToChild := fun _ => none,
             openSelfNsRes := none, openPidNsRes := none,
             setnsToPidRes := none, setnsBackRes := none },
    hasStartCallback := false, waitRes := WaitResult.normal,
    exitStatus := 0, childPid := 42 }

/-- Witness for C8 on a successful run: cgroup setup precedes network
initialization in the trace. -/
theorem c8_cgroups_before_networking_witness :
    (SetupCgroups c8execEnv.cg ⟨false, none, [], [], []⟩ c8execEnv.childPid).2 = none ∧
    (Exec c8execEnv ⟨false, none, [], [], []⟩).events.count Event.setupCgroupsEv = 1 ∧
    (Exec c8execEnv ⟨false, none, [], [], []⟩).events.count Event.initNetEv = 1 ∧
    ∃ l₁ l₂ l₃, (Exec c8execEnv ⟨false, none, [], [], []⟩).events =
      l₁ ++ Event.setupCgroupsEv :: (l₂ ++ Event.initNetEv :: l₃) :=
  c8_cgroups_before_networking c8execEnv ⟨false, none, [], [], []⟩ (by decide)

/-- All parent-side setup succeeded: pipe creation, optional terminal
allocation, terminal attach, child start, start-time read, pid record,
cgroup application and network initialization. -/
def parentSetupOk (env : ExecEnv) (container : Container) : Bool :=
  env.newSyncPipeRes.isNone &&
  (!container.Tty || env.createMasterRes.isNone) &&
  env.termAttachRes.isNone &&
  env.commandStartRes.isNone &&
  env.getStartTimeRes.isNone &&
  env.writePidRes.isNone &&
  (SetupCgroups env.cg container env.childPid).2.isNone &&
  (InitializeNetworking env.net container env.childPid).1.isNone

/-- Counterexample to C5 as stated: a launch aborted at the pid-record
step with the child killed, on which the parent's pipe endpoint is not
closed at all — so it is not closed exactly once on every execution. -/
theorem c5_pipe_close_counterexample :
    (Exec
      { newSyncPipeRes := none, createMasterRes := none, termAttachRes := none,
        commandStartRes := none, getStartTimeRes := none, writePidRes := some 8,
        cg := { useSystemd := false,
                systemdApply := fun _ _ => (none, none),
                fsApply := fun _ _ => (none, none) },
        net := { getStrategy := fun _ => Except.error 0,
                 ifaceDownRes := fun _ => none, setNsPidRes := fun _ _ => none,
                 ifaceUpRes := fun _ => none, sendToChild := fun _ => none,
                 openSelfNsRes := none, openPidNsRes := none,
                 setnsToPidRes := none, setnsBackRes := none },
        hasStartCallback := false, waitRes := WaitResult.normal,
        exitStatus := 0, childPid := 42 }
      ⟨false, none, [], [], []⟩).events.count Event.killEv = 1 ∧
    ¬ ((Exec
      { newSyncPipeRes := none, createMasterRes := none, termAttachRes := none,
        commandStartRes := none, getStartTimeRes := none, writePidRes := some 8,
        cg := { useSystemd := false,
                systemdApply := fun _ _ => (none, none),
                fsApply := fun _ _ => (none, none) },
        net := { getStrategy := fun _ => Except.error 0,
                 ifaceDownRes := fun _ => none, setNsPidRes := fun _ _ => none,
                 ifaceUpRes := fun _ => none, sendToChild := fun _ => none,
                 openSelfNsRes := none, openPidNsRes := none,
                 setnsToPidRes := none, setnsBackRes := none },
        hasStartCallback := false, waitRes := WaitResult.normal,
        exitStatus := 0, childPid := 42 }
      ⟨false, none, [], [], []⟩).events.count Event.pipeCloseEv = 1) := by
  constructor <;> decide

/-- C5 as amended: the parent-side pipe endpoint is closed at most once;
it is closed exactly once precisely when all parent-side setup (through
cgroup application and network initialization) succeeded, and then only
after the cgroup and network steps; on aborted launches `Exec` returns
without closing it. -/
theorem c5_pipe_close_amended
    (env : ExecEnv) (container : Container) :
    ((Exec env container).events.count Event.pipeCloseEv =
      if parentSetupOk env container then 1 else 0) ∧
    (parentSetupOk env container = true →
      ∃ l₁ l₂, (Exec env container).events = l₁ ++ Event.pipeCloseEv :: l₂ ∧
        Event.setupCgroupsEv ∈ l₁ ∧ Event.initNetEv ∈ l₁) := by
  rcases exec_cases env container with
    ⟨e, hc1, hE⟩ | ⟨e, hcT, hc2, hE⟩ | ⟨e, hc3, hE⟩ | ⟨e, hc4, hE⟩ | ⟨e, hc5, hE⟩ |
    ⟨e, hc6, hE⟩ | ⟨e, hc7, hE⟩ | ⟨e, hc8, _, hE⟩ |
    ⟨hp, hbool, ha, hs, hg, hwp, hcg, hnet, hE⟩
  · have hok : parentSetupOk env container = false := by simp [parentSetupOk, hc1]
    rw [hE, hok]
    exact ⟨by simp, by simp⟩
  · have hok : parentSetupOk env container = false := by
      simp [parentSetupOk, hcT, hc2]
    rw [hE, hok]
    exact ⟨by simp, by simp⟩
  · have hok : parentSetupOk env container = false := by simp [parentSetupOk, hc3]
    rw [hE, hok]
    refine ⟨?_, by simp⟩
    simp [List.count_append, count_preEvs_zero container]
  · have hok : parentSetupOk env container = false := by simp [parentSetupOk, hc4]
    rw [hE, hok]
    refine ⟨?_, by simp⟩
    simp [List.count_append, count_preEvs_zero container]
  · have hok : parentSetupOk env container = false := by simp [parentSetupOk, hc5]
    rw [hE, hok]
    refine ⟨?_, by simp⟩
    simp [List.count_append, count_preEvs_zero container]
  · have hok : parentSetupOk env container = false := by simp [parentSetupOk, hc6]
    rw [hE, hok]
    refine ⟨?_, by simp⟩
    simp [List.count_append, count_preEvs_zero container]
  · have hok : parentSetupOk env container = false := by simp [parentSetupOk, hc7]
    rw [hE, hok]
    refine ⟨?_, by simp⟩
    simp [List.count_append, count_preEvs_zero container]
  · have hok : parentSetupOk env container = false := by simp [parentSetupOk, hc8]
    rw [hE, hok]
    refine ⟨?_, by simp⟩
    simp [List.count_append, count_preEvs_zero container,
      count_cleanupEvs_zero (SetupCgroups env.cg container env.childPid).1]
  · have hok : parentSetupOk env container = true := by
      simp [parentSetupOk, hp, hbool, ha, hs, hg, hwp, hcg, hnet]
    rw [hE, hok]
    refine ⟨?_, fun _ => ?_⟩
    · rw [if_pos rfl,
        count_successEvs env container (by decide) (by decide) (by decide)
          (by decide) (by decide)]
      decide
    · refine ⟨preEvs container ++
        [Event.termAttachEv, Event.commandStartEv, Event.getStartTimeEv,
          Event.writePidEv, Event.setupCgroupsEv, Event.initNetEv],
        cbEvs env ++ [Event.waitEv, Event.teardownNetEv] ++
          cleanupEvs (SetupCgroups env.cg container env.childPid).1 ++
          [Event.deletePidEv, Event.termCloseEv], ?_, ?_, ?_⟩
      · simp [successEvs, List.append_assoc]
      · simp
      · simp

/-- Exec environment fixture for the C5 amended-claim witness: a fully
successful launch with a start callback and a cgroup handle. -/
def c5execEnv : ExecEnv :=
  { newSyncPipeRes := none, createMasterRes := none, termAttachRes := none,
    commandStartRes := none, getStartTimeRes := none, writePidRes := none,
    cg := { useSystemd := false,
            systemdApply := fun _ _ => (none, none),
            fsApply := fun c _ => (some ⟨c.id⟩, none) },
    net := { getStrategy := fun _ => Except.error 0,
             ifaceDownRes := fun _ => none, setNsPidRes := fun _ _ => none,
             ifaceUpRes := fun _ => none, sendToChild := fun _ => none,
             openSelfNsRes := none, openPidNsRes := none,
             setnsToPidRes := none, setnsBackRes := none },
    hasStartCallback := true, waitRes := WaitResult.normal,
    exitStatus := 0, childPid := 42 }

/-- Witness for the amended C5 on a successful launch: the pipe is
closed exactly once, after the cgroup and network steps. -/
theorem c5_pipe_close_amended_witness :
    ((Exec c5execEnv ⟨false, some ⟨3⟩, [], [], []⟩).events.count Event.pipeCloseEv =
      if parentSetupOk c5execEnv ⟨false, some ⟨3⟩, [], [], []⟩ then 1 else 0) ∧
    (parentSetupOk c5execEnv ⟨false, some ⟨3⟩, [], [], []⟩ = true →
      ∃ l₁ l₂,
        (Exec c5execEnv ⟨false, some ⟨3⟩, [], [], []⟩).events =
          l₁ ++ Event.pipeCloseEv :: l₂ ∧
        Event.setupCgroupsEv ∈ l₁ ∧ Event.initNetEv ∈ l₁) :=
  c5_pipe_close_amended c5execEnv ⟨false, some ⟨3⟩, [], [], []⟩

/-- Counterexample to C6 as stated: a tty container whose terminal
allocation fails; `Exec` returns the error but the already-created
synchronization pipe is never released (no close event occurs), so the
abort does not perform pipe cleanup. -/
theorem c6_terminal_fail_counterexample :
    (Exec
      { newSyncPipeRes := none, createMasterRes := some 7, termAttachRes := none,
        commandStartRes := none, getStartTimeRes := none, writePidRes := none,
        cg := { useSystemd := false,
                systemdApply := fun _ _ => (none, none),
                fsApply := fun _ _ => (none, none) },
        net := { getStrategy := fun _ => Except.error 0,
                 ifaceDownRes := fun _ => none, setNsPidRes := fun _ _ => none,
                 ifaceUpRes := fun _ => none, sendToChild := fun _ => none,
                 openSelfNsRes := none, openPidNsRes := none,
                 setnsToPidRes := none, setnsBackRes := none },
        hasStartCallback := false, waitRes := WaitResult.normal,
        exitStatus := 0, childPid := 42 }
      ⟨true, none, [], [], []⟩).error = some 7 ∧
    (Exec
      { newSyncPipeRes := none, createMasterRes := some 7, termAttachRes := none,
        commandStartRes := none, getStartTimeRes := none, writePidRes := none,
        cg := { useSystemd := false,
                systemdApply := fun _ _ => (none, none),
                fsApply := fun _ _ => (none, none) },
        net := { getStrategy := fun _ => Except.error 0,
                 ifaceDownRes := fun _ => none, setNsPidRes := fun _ _ => none,
                 ifaceUpRes := fun _ => none, sendToChild := fun _ => none,
                 openSelfNsRes := none, openPidNsRes := none,
                 setnsToPidRes := none, setnsBackRes := none },
        hasStartCallback := false, waitRes := WaitResult.normal,
        exitStatus := 0, childPid := 42 }
      ⟨true, none, [], [], []⟩).events.count Event.pipeCloseEv = 0 := by
  constructor <;> decide

/-- C6 as amended: if the container requests a terminal and allocation of
the master/console pair fails, `Exec` aborts and returns that error
having performed no cleanup at all — in particular the already-created
synchronization pipe is not released — with no child process started and
no other resource acquired. -/
theorem c6_terminal_fail_amended
    (env : ExecEnv) (container : Container) (e : GoError)
    (h0 : env.newSyncPipeRes = none)
    (ht : container.Tty = true)
    (hc : env.createMasterRes = some e) :
    Exec env container =
      { exitCode := -1, error := some e,
        events := [Event.newSyncPipeEv, Event.createMasterEv] } :=
  exec_master_fail env container e h0 ht hc

/-- Exec environment fixture for the C6 amended-claim witness. -/
def c6execEnv : ExecEnv :=
  { newSyncPipeRes := none, createMasterRes := some 7, termAttachRes := none,
    commandStartRes := none, getStartTimeRes := none, writePidRes := none,
    cg := { useSystemd := false,
            systemdApply := fun _ _ => (none, none),
            fsApply := fun _ _ => (none, none) },
    net := { getStrategy := fun _ => Except.error 0,
             ifaceDownRes := fun _ => none, setNsPidRes := fun _ _ => none,
             ifaceUpRes := fun _ => none, sendToChild := fun _ => none,
             openSelfNsRes := none, openPidNsRes := none,
             setnsToPidRes := none, setnsBackRes := none },
    hasStartCallback := false, waitRes := WaitResult.normal,
    exitStatus := 0, childPid := 42 }

/-- Witness for the amended C6: the run stops right after the failed
master/console allocation, with no further events. -/
theorem c6_terminal_fail_amended_witness :
    Exec c6execEnv ⟨true, none, [], [], []⟩ =
      { exitCode := -1, error := some 7,
        events := [Event.newSyncPipeEv, Event.createMasterEv] } :=
  c6_terminal_fail_amended c6execEnv ⟨true, none, [], [], []⟩ 7 rfl rfl rfl

end Libcontainer
